import Mathlib

/-!
Verification development for the smtp-uvx-mcp repository: a shallow
embedding of `src/smtp_uvx_mcp/server.py` (an MCP stdio server exposing a
single `send_email` tool backed by an SMTP client) together with theorems
about its behaviour.

External effects of the Python code are modelled as explicit parameters:
the process environment is an association list, the unique part of the
generated message id and the SMTP transport outcome are oracle inputs, and
a possible exception raised by the e-mail composition library is an
`Option String` oracle.  Raised Python exceptions are modelled with
`Except`.
-/

namespace SmtpMcp

/-- Model of a Python/JSON value as it appears in MCP tool-call arguments. -/
inductive JValue where
  | null : JValue
  | bool (b : Bool) : JValue
  | num (n : Int) : JValue
  | str (s : String) : JValue
  | arr (xs : List JValue) : JValue
  | obj (fields : List (String × JValue)) : JValue

/-- Python truthiness of a `JValue`: `None`, `False`, `0`, the empty string,
the empty list and the empty dict are falsy; everything else is truthy. -/
def truthy : JValue → Bool
  | .null => false
  | .bool b => b
  | .num n => n ≠ 0
  | .str s => s ≠ ""
  | .arr xs => !xs.isEmpty
  | .obj fields => !fields.isEmpty

/-- Python `a or b` on values: `a` if truthy, else `b`. -/
def pyOr (a b : JValue) : JValue := if truthy a then a else b

/-- First binding of a key in an association list (Python dict lookup). -/
def dictGet : List (String × JValue) → String → Option JValue
  | [], _ => none
  | (k, v) :: rest, key => if k = key then some v else dictGet rest key

/-- Python `arguments.get(key)`: the bound value, or `None` when absent. -/
def pyGet (args : List (String × JValue)) (key : String) : JValue :=
  (dictGet args key).getD .null

/-- Check that every element of a list of values is a string and extract the
strings, mirroring `all(isinstance(x, str) for x in to)`. -/
def allStrs : List JValue → Option (List String)
  | [] => some []
  | .str s :: rest => (allStrs rest).map (fun tl => s :: tl)
  | _ :: _ => none

/-- Mirror of `isinstance(to, list) and all(isinstance(x, str) for x in to)`:
`some` of the strings when `v` is a list of strings, `none` otherwise. -/
def asStrList : JValue → Option (List String)
  | .arr xs => allStrs xs
  | _ => none

/-- Model of a raised Python exception reaching the caller. -/
inductive PyError where
  | valueError (msg : String) : PyError
  | libraryError (msg : String) : PyError
deriving DecidableEq

/-- Lowercase an ASCII letter, mirroring Python `str.lower()` on the ASCII
configuration strings this program compares. -/
def asciiLowerChar (c : Char) : Char :=
  if 'A' ≤ c ∧ c ≤ 'Z' then Char.ofNat (c.toNat + 32) else c

/-- ASCII lowering of a whole string. -/
def asciiLower (s : String) : String := ⟨s.toList.map asciiLowerChar⟩

/-- Whitespace for the purpose of Python `int(...)` argument stripping. -/
def isSpaceChar (c : Char) : Bool :=
  c = ' ' ∨ c = '\t' ∨ c = '\n' ∨ c = '\r' ∨ c.toNat = 11 ∨ c.toNat = 12

/-- Digits possibly separated by single underscores, accumulating the value;
an underscore must be followed by a digit (Python numeric-literal rule). -/
def parseDigitsAux : List Char → Nat → Option Nat
  | [], acc => some acc
  | [c], acc =>
      if c.isDigit then some (acc * 10 + (c.toNat - 48)) else none
  | c :: d :: rest, acc =>
      if c.isDigit then parseDigitsAux (d :: rest) (acc * 10 + (c.toNat - 48))
      else if c = '_' ∧ d.isDigit then
        parseDigitsAux rest (acc * 10 + (d.toNat - 48))
      else none

/-- A nonempty digit string (with optional internal underscores): the first
character must be a digit. -/
def parseDigitsStart : List Char → Option Nat
  | [] => none
  | c :: rest =>
      if c.isDigit then parseDigitsAux rest (c.toNat - 48) else none

/-- Model of Python `int(s)` for base-10 strings: strip surrounding
whitespace, allow one optional sign, then digits with optional underscore
separators; `none` models a raised `ValueError`. -/
def pyIntOfString (s : String) : Option Int :=
  let cs := ((s.toList.dropWhile isSpaceChar).reverse.dropWhile isSpaceChar).reverse
  match cs with
  | '+' :: rest => (parseDigitsStart rest).map Int.ofNat
  | '-' :: rest => (parseDigitsStart rest).map (fun n => -(Int.ofNat n))
  | rest => (parseDigitsStart rest).map Int.ofNat

/-- The process environment, as consulted through `os.environ.get`. -/
def Env := List (String × String)

/-- Lookup of an environment variable (first binding wins). -/
def envGet : Env → String → Option String
  | [], _ => none
  | (k, v) :: rest, key => if k = key then some v else envGet rest key

/-- The state of `EmailClient` after `__init__`: SMTP connection parameters
and credentials (`self.host`, `self.port`, `self.use_tls`, `self.username`,
`self.password`, `self.from_addr`). -/
structure EmailClient where
  host : String
  port : Int
  use_tls : Bool
  username : String
  password : String
  from_addr : String

/-- The port computation of `EmailClient.__init__`:
`port_str = os.environ.get("SMTP_PORT", "587")` then `int(port_str)` with a
fallback to `587` when `int` raises `ValueError`. -/
def configPort (env : Env) : Int :=
  (pyIntOfString ((envGet env "SMTP_PORT").getD "587")).getD 587

/-- Python falsiness of an optional string (`not x` for
`x: Optional[str]`): `None` and the empty string are falsy. -/
def optStrFalsy : Option String → Bool
  | none => true
  | some s => s = ""

/-- Embedding of `EmailClient.__init__`: reads `SMTP_HOST`, `SMTP_PORT`,
`SMTP_SECURE`, `SMTP_USER`, `SMTP_PASS`, `SMTP_FROM` from the environment;
a raised `RuntimeError` is modelled as `Except.error` with its message.
`from_addr` is `os.environ.get("SMTP_FROM") or self.username`. -/
def mkEmailClient (env : Env) : Except String EmailClient :=
  match envGet env "SMTP_HOST" with
  | none => .error "SMTP_HOST is required"
  | some host =>
    if host = "" then .error "SMTP_HOST is required"
    else
      let port := configPort env
      let secure := asciiLower ((envGet env "SMTP_SECURE").getD "false") = "true"
      let username? := envGet env "SMTP_USER"
      let password? := envGet env "SMTP_PASS"
      if optStrFalsy username? ∨ optStrFalsy password? then
        .error "SMTP_USER and SMTP_PASS are required"
      else
        .ok { host := host, port := port, use_tls := secure,
              username := username?.getD "", password := password?.getD "",
              from_addr :=
                match envGet env "SMTP_FROM" with
                | some f => if f = "" then username?.getD "" else f
                | none => username?.getD "" }

/-- One MIME part of the composed message: the plain-text part set by
`msg.set_content(text or "")`, or the HTML alternative added by
`msg.add_alternative(html, subtype="html")`. -/
inductive MsgPart where
  | text (content : JValue) : MsgPart
  | htmlAlt (content : String) : MsgPart

/-- The composed `EmailMessage`: headers `From`, `To` (comma-joined
recipients), `Subject`, `Message-Id`, and the list of content parts. -/
structure ComposedMessage where
  fromAddr : String
  toHeader : String
  subject : JValue
  messageId : String
  parts : List MsgPart

/-- Model of `email.utils.make_msgid()`: the library returns a string of the
form `<uniqueval@domain>`, where `uniqueval` combines a timestamp, the pid
and a random number; the unique part and the domain are oracle inputs. -/
def make_msgid (uniqueval domain : String) : String :=
  "<" ++ uniqueval ++ "@" ++ domain ++ ">"

/-- The message built by lines 50-63 of `server.py`: headers From/To/Subject
and Message-Id, plain-text content `text or ""`, and an HTML alternative
part exactly when `html` is truthy (`if html:`). -/
def composeMessage (cfg : EmailClient) (to_ : List String) (subject text : JValue)
    (html : Option String) (msg_id : String) : ComposedMessage :=
  { fromAddr := cfg.from_addr
    toHeader := String.intercalate ", " to_
    subject := subject
    messageId := msg_id
    parts :=
      match html with
      | some h =>
          if h ≠ "" then [.text (pyOr text (.str "")), .htmlAlt h]
          else [.text (pyOr text (.str ""))]
      | none => [.text (pyOr text (.str ""))] }

/-- The transport flags computed for `aiosmtplib.send`:
`use_tls = self.use_tls` and `start_tls = not self.use_tls` (line 68). -/
def transportSettings (cfg : EmailClient) : Bool × Bool :=
  (cfg.use_tls, !cfg.use_tls)

/-- The dictionary returned by `send_email`: the success shape
`{messageId, accepted, rejected, responseCode, responseInfo}` or the failure
shape `{messageId, accepted, rejected, error}`. -/
inductive SendResult where
  | success (messageId : String) (accepted rejected : List String)
      (responseCode : Int) (responseInfo : String) : SendResult
  | failure (messageId : String) (accepted rejected : List String)
      (error : String) : SendResult
deriving DecidableEq

/-- The `messageId` field common to both result shapes. -/
def SendResult.messageId : SendResult → String
  | .success mid _ _ _ _ => mid
  | .failure mid _ _ _ => mid

/-- The `messageId` of a returned result, `none` when the call raised. -/
def resultMessageId : Except PyError SendResult → Option String
  | .ok r => some r.messageId
  | .error _ => none

/-- The `error` field of a returned failure-shaped result; `none` when the
call raised or returned the success shape. -/
def resultFailureError : Except PyError SendResult → Option String
  | .ok (.failure _ _ _ e) => some e
  | _ => none

/-- Embedding of `EmailClient.send_email`.  The unique part and domain of
the generated message id, a possible exception raised by the e-mail
composition library (`composeExc`, outside the `try`), and the transport
outcome of `aiosmtplib.send` on the composed message (`transport`, inside
the `try`) are oracle inputs.  An empty recipient list raises `ValueError`
before anything else; a transport exception is caught and turned into the
failure dictionary with all recipients rejected. -/
def send_email (cfg : EmailClient) (to_ : List String) (subject text : JValue)
    (html : Option String) (msgIdUnique msgIdDomain : String)
    (composeExc : Option String)
    (transport : ComposedMessage → Except String (Int × String)) :
    Except PyError SendResult :=
  if to_ = [] then .error (.valueError "At least one recipient is required")
  else
    let msg_id := make_msgid msgIdUnique msgIdDomain
    match composeExc with
    | some e => .error (.libraryError e)
    | none =>
      match transport (composeMessage cfg to_ subject text html msg_id) with
      | .ok (code, info) => .ok (.success msg_id to_ [] code info)
      | .error e => .ok (.failure msg_id [] to_ e)

/-- One hex digit (lowercase), for `\uXXXX` escapes in JSON strings. -/
def hexDigit (n : Nat) : Char :=
  if n < 10 then Char.ofNat (48 + n) else Char.ofNat (87 + n)

/-- Four-hex-digit rendering of a number below 2^16. -/
def hex4 (n : Nat) : String :=
  ⟨[hexDigit (n / 4096 % 16), hexDigit (n / 256 % 16),
    hexDigit (n / 16 % 16), hexDigit (n % 16)]⟩

/-- Escaping of one character as Python `json.dumps` (default
`ensure_ascii=True`) renders it inside a JSON string literal. -/
def jsonEscapeChar (c : Char) : String :=
  if c = '"' then "\\\""
  else if c = '\\' then "\\\\"
  else if c = '\n' then "\\n"
  else if c = '\r' then "\\r"
  else if c = '\t' then "\\t"
  else if c.toNat = 8 then "\\b"
  else if c.toNat = 12 then "\\f"
  else if c.toNat < 32 ∨ c.toNat > 126 then
    if c.toNat < 65536 then "\\u" ++ hex4 c.toNat
    else
      let n := c.toNat - 65536
      "\\u" ++ hex4 (55296 + n / 1024) ++ "\\u" ++ hex4 (56320 + n % 1024)
  else String.singleton c

/-- A JSON string literal for `s`, as `json.dumps` renders it. -/
def jsonStr (s : String) : String :=
  "\"" ++ String.join (s.toList.map jsonEscapeChar) ++ "\""

/-- A JSON array of string literals, with the default `", "` separator. -/
def jsonStrList (xs : List String) : String :=
  "[" ++ String.intercalate ", " (xs.map jsonStr) ++ "]"

/-- Model of `json.dumps(result)` on the dictionary `send_email` returns,
with the keys in insertion order. -/
def jsonDumps : SendResult → String
  | .success mid acc rej code info =>
      "\x7b" ++ jsonStr "messageId" ++ ": " ++ jsonStr mid ++ ", " ++
        jsonStr "accepted" ++ ": " ++ jsonStrList acc ++ ", " ++
        jsonStr "rejected" ++ ": " ++ jsonStrList rej ++ ", " ++
        jsonStr "responseCode" ++ ": " ++ toString code ++ ", " ++
        jsonStr "responseInfo" ++ ": " ++ jsonStr info ++ "\x7d"
  | .failure mid acc rej err =>
      "\x7b" ++ jsonStr "messageId" ++ ": " ++ jsonStr mid ++ ", " ++
        jsonStr "accepted" ++ ": " ++ jsonStrList acc ++ ", " ++
        jsonStr "rejected" ++ ": " ++ jsonStrList rej ++ ", " ++
        jsonStr "error" ++ ": " ++ jsonStr err ++ "\x7d"

/-- An MCP `types.TextContent` item. -/
structure TextContent where
  type : String
  text : String
deriving DecidableEq

/-- Embedding of `handle_call_tool`.  A name other than `"send_email"`
raises `ValueError`; `to`, `subject` and `body` are extracted with
`arguments.get(k) or default`; a `to` that is not a list of strings raises
`ValueError`; otherwise the result of `send_email` (with `html` absent) is
serialized as a single text content item.  Raised exceptions — the
gateway's own and any propagated from `send_email` — are `Except.error`,
which the MCP runtime surfaces as a protocol-level error for that call. -/
def handle_call_tool (client : EmailClient) (name : String)
    (arguments : List (String × JValue)) (msgIdUnique msgIdDomain : String)
    (composeExc : Option String)
    (transport : ComposedMessage → Except String (Int × String)) :
    Except PyError (List TextContent) :=
  if name ≠ "send_email" then .error (.valueError ("Unknown tool: " ++ name))
  else
    let toV := pyOr (pyGet arguments "to") (.arr [])
    let subjectV := pyOr (pyGet arguments "subject") (.str "")
    let bodyV := pyOr (pyGet arguments "body") (.str "")
    match asStrList toV with
    | none => .error (.valueError "\x27to\x27 must be a list of strings")
    | some to_ =>
      match send_email client to_ subjectV bodyV none msgIdUnique msgIdDomain
          composeExc transport with
      | .error e => .error e
      | .ok r => .ok [{ type := "text", text := jsonDumps r }]

/-- One incoming invoke-capability request together with the oracle inputs
(message-id material, composition exception, transport outcome) its
handling consumes. -/
structure ToolCall where
  name : String
  arguments : List (String × JValue)
  msgIdUnique : String
  msgIdDomain : String
  composeExc : Option String
  transport : ComposedMessage → Except String (Int × String)

/-- Handling of one queued call. -/
def runCall (client : EmailClient) (c : ToolCall) :
    Except PyError (List TextContent) :=
  handle_call_tool client c.name c.arguments c.msgIdUnique c.msgIdDomain
    c.composeExc c.transport

/-- The Ready-state serving loop: each incoming call is handled by the
stateless handler in arrival order; a per-call error does not alter the
handling of subsequent calls. -/
def serveCalls (client : EmailClient) : List ToolCall →
    List (Except PyError (List TextContent))
  | [] => []
  | c :: rest => runCall client c :: serveCalls client rest

/-- Well-formedness of a generated message identifier: nonempty, and of the
shape angle-bracketed `unique@domain` as `email.utils.make_msgid` produces. -/
def msgIdWellFormed (s : String) : Prop :=
  s ≠ "" ∧ ∃ a b : String, s = "<" ++ a ++ "@" ++ b ++ ">"

/-- A sample `EmailClient` configuration used for concrete evaluations. -/
def cfgEx : EmailClient :=
  { host := "smtp.example.com", port := 587, use_tls := false,
    username := "a@example.com", password := "x", from_addr := "a@example.com" }

/-- A sample transport oracle in which the SMTP connection fails. -/
def trEx : ComposedMessage → Except String (Int × String) :=
  fun _ => .error "connection refused"

/-- A generated message id is never the empty string. -/
theorem make_msgid_ne_empty (u d : String) : make_msgid u d ≠ "" := by
  intro h
  have hlen := congrArg String.length h
  simp [make_msgid, String.length_append] at hlen
  exact absurd hlen.2 (by decide)

/-- C1: for a `send_email` invocation whose recipient list is non-empty, if
the transport send raises any exception, `send_email` does not raise: it
returns the failure-shaped record, and `handle_call_tool` delivers that
record serialized as a normal text-content response, not as a raised
(protocol-level) error. -/
theorem C1_transport_failure_is_normal_payload
    (client : EmailClient) (args : List (String × JValue)) (to_ : List String)
    (u d e : String) (tr : ComposedMessage → Except String (Int × String))
    (hto : asStrList (pyOr (pyGet args "to") (.arr [])) = some to_)
    (hne : to_ ≠ [])
    (htr : ∀ m, tr m = .error e) :
    send_email client to_ (pyOr (pyGet args "subject") (.str ""))
        (pyOr (pyGet args "body") (.str "")) none u d none tr
      = .ok (.failure (make_msgid u d) [] to_ e)
    ∧ handle_call_tool client "send_email" args u d none tr
      = .ok [⟨"text", jsonDumps (.failure (make_msgid u d) [] to_ e)⟩] := by
  have h1 : send_email client to_ (pyOr (pyGet args "subject") (.str ""))
      (pyOr (pyGet args "body") (.str "")) none u d none tr
      = .ok (.failure (make_msgid u d) [] to_ e) := by
    simp [send_email, hne, htr]
  refine ⟨h1, ?_⟩
  simp [handle_call_tool, hto, h1]

/-- Witness for C1 at a concrete call whose transport fails. -/
theorem C1_transport_failure_is_normal_payload_witness :
    handle_call_tool cfgEx "send_email"
        [("to", JValue.arr [JValue.str "b@example.com"])] "u1" "example.com"
        none trEx
      = .ok [⟨"text", jsonDumps (.failure (make_msgid "u1" "example.com") []
          ["b@example.com"] "connection refused")⟩] :=
  (C1_transport_failure_is_normal_payload cfgEx
    [("to", JValue.arr [JValue.str "b@example.com"])] ["b@example.com"]
    "u1" "example.com" "connection refused" trEx rfl (by decide)
    (fun _ => rfl)).2

/-- C2: for a non-empty recipient list and arbitrary subject and body, the
returned record's `messageId` is the generated id regardless of the
transport outcome (so it is the same value in the success and failure
shapes), and that id is non-empty and well-formed. -/
theorem C2_message_id_stable_and_wellformed
    (cfg : EmailClient) (to_ : List String) (subject text : JValue)
    (html : Option String) (u d : String) (hne : to_ ≠ []) :
    (∀ tr, resultMessageId (send_email cfg to_ subject text html u d none tr)
        = some (make_msgid u d))
    ∧ make_msgid u d ≠ ""
    ∧ msgIdWellFormed (make_msgid u d) := by
  refine ⟨?_, make_msgid_ne_empty u d, make_msgid_ne_empty u d, u, d, rfl⟩
  intro tr
  cases htr : tr (composeMessage cfg to_ subject text html (make_msgid u d)) with
  | ok v =>
    cases v with
    | mk code info =>
      simp [send_email, hne, htr, resultMessageId, SendResult.messageId]
  | error e =>
    simp [send_email, hne, htr, resultMessageId, SendResult.messageId]

/-- Witness for C2 at a concrete call whose transport fails. -/
theorem C2_message_id_stable_and_wellformed_witness :
    resultMessageId (send_email cfgEx ["b@example.com"] (JValue.str "Hi")
        (JValue.str "Hello") none "u1" "example.com" none trEx)
      = some (make_msgid "u1" "example.com") :=
  (C2_message_id_stable_and_wellformed cfgEx ["b@example.com"]
    (JValue.str "Hi") (JValue.str "Hello") none "u1" "example.com"
    (by decide)).1 trEx

/-- C3 counterexample: when the transport exception's textual description is
the empty string, `send_email` returns the failure shape with `error = ""`,
so the returned `error` is not a non-empty description of the failure. -/
theorem C3_error_field_can_be_empty :
    resultFailureError (send_email cfgEx ["b@example.com"] (JValue.str "Hi")
        (JValue.str "Hello") none "u1" "example.com" none
        (fun _ => .error ""))
      = some "" := rfl

/-- C3 (amended): on success `accepted` echoes the recipient list exactly
and `rejected` is empty; on a transport exception `rejected` echoes the
recipient list exactly, `accepted` is empty, and `error` is exactly the
exception's textual description (which the code does not guarantee to be
non-empty). -/
theorem C3_accepted_rejected_echo
    (cfg : EmailClient) (to_ : List String) (subject text : JValue)
    (html : Option String) (u d : String)
    (tr : ComposedMessage → Except String (Int × String)) (hne : to_ ≠ []) :
    (∀ code info,
       tr (composeMessage cfg to_ subject text html (make_msgid u d))
           = .ok (code, info) →
       send_email cfg to_ subject text html u d none tr
         = .ok (.success (make_msgid u d) to_ [] code info))
    ∧ (∀ e,
       tr (composeMessage cfg to_ subject text html (make_msgid u d))
           = .error e →
       send_email cfg to_ subject text html u d none tr
         = .ok (.failure (make_msgid u d) [] to_ e)) := by
  constructor
  · intro code info htr
    simp [send_email, hne, htr]
  · intro e htr
    simp [send_email, hne, htr]

/-- Witness for the amended C3 at a concrete failing call. -/
theorem C3_accepted_rejected_echo_witness :
    send_email cfgEx ["b@example.com"] (JValue.str "Hi") (JValue.str "Hello")
        none "u1" "example.com" none trEx
      = .ok (.failure (make_msgid "u1" "example.com") [] ["b@example.com"]
          "connection refused") :=
  (C3_accepted_rejected_echo cfgEx ["b@example.com"] (JValue.str "Hi")
    (JValue.str "Hello") none "u1" "example.com" trEx (by decide)).2
    "connection refused" rfl

/-- C4: `send_email` on an empty recipient list raises the argument
`ValueError` without consulting the composition or transport oracles; at the
gateway, omitting `to` defaults it to the empty list, so the call raises
that same argument error (a per-call protocol error), and the serving loop
handles subsequent calls unchanged. -/
theorem C4_empty_recipients_argument_error
    (client : EmailClient) (args : List (String × JValue))
    (hto : dictGet args "to" = none) :
    (∀ subject text html u d ce tr,
        send_email client [] subject text html u d ce tr
          = .error (.valueError "At least one recipient is required"))
    ∧ (∀ u d ce tr,
        handle_call_tool client "send_email" args u d ce tr
          = .error (.valueError "At least one recipient is required"))
    ∧ (∀ (c : ToolCall) (rest : List ToolCall),
        c.name = "send_email" → c.arguments = args →
        serveCalls client (c :: rest)
          = .error (.valueError "At least one recipient is required")
            :: serveCalls client rest) := by
  have h2 : ∀ u d ce tr,
      handle_call_tool client "send_email" args u d ce tr
        = .error (.valueError "At least one recipient is required") := by
    intro u d ce tr
    simp [handle_call_tool, pyGet, hto, pyOr, truthy, asStrList, allStrs,
      send_email]
  refine ⟨?_, h2, ?_⟩
  · intro subject text html u d ce tr
    simp [send_email]
  · intro c rest hn ha
    simp [serveCalls, runCall, hn, ha, h2]

/-- Witness for C4: a call whose arguments carry no `to` key. -/
theorem C4_empty_recipients_argument_error_witness :
    dictGet [("subject", JValue.str "Hi")] "to" = none
    ∧ handle_call_tool cfgEx "send_email" [("subject", JValue.str "Hi")]
        "u1" "example.com" none trEx
      = .error (.valueError "At least one recipient is required") :=
  ⟨rfl, (C4_empty_recipients_argument_error cfgEx
    [("subject", JValue.str "Hi")] rfl).2.1 "u1" "example.com" none trEx⟩

/-- C5 counterexample: with `to` present but equal to `false` — a value that
is not a sequence of strings — the gateway's `arguments.get("to") or []`
coerces it to the empty list, the validation passes, and the Mail Sender is
invoked: the call fails with the Mail Sender's own precondition error
("At least one recipient is required"), not with the gateway's
argument-validation error about `to`. -/
theorem C5_falsy_to_reaches_mail_sender :
    handle_call_tool cfgEx "send_email" [("to", JValue.bool false)]
        "u1" "example.com" none trEx
      = .error (.valueError "At least one recipient is required") := rfl

/-- C5 (amended): if the `to` argument is present, truthy, and not a list in
which every element is a string, the gateway fails with the
argument-validation error without attempting a send; but if `to` is present
and falsy (e.g. `false`, `0`, `""`, `[]`), it is coerced to the empty list
and the call instead reaches the Mail Sender and fails its empty-recipients
precondition. -/
theorem C5_to_argument_validation
    (client : EmailClient) (args : List (String × JValue)) (v : JValue)
    (hv : dictGet args "to" = some v) :
    (truthy v = true → asStrList v = none →
      ∀ u d ce tr, handle_call_tool client "send_email" args u d ce tr
        = .error (.valueError "\x27to\x27 must be a list of strings"))
    ∧ (truthy v = false →
      ∀ u d ce tr, handle_call_tool client "send_email" args u d ce tr
        = .error (.valueError "At least one recipient is required")) := by
  constructor
  · intro ht hs u d ce tr
    simp [handle_call_tool, pyGet, hv, pyOr, ht, hs]
  · intro ht u d ce tr
    simp [handle_call_tool, pyGet, hv, pyOr, ht, asStrList, allStrs,
      send_email]

/-- Witness for the amended C5: a truthy non-list `to` is rejected by the
gateway's validation. -/
theorem C5_to_argument_validation_witness :
    truthy (JValue.str "abc") = true
    ∧ asStrList (JValue.str "abc") = none
    ∧ handle_call_tool cfgEx "send_email" [("to", JValue.str "abc")]
        "u1" "example.com" none trEx
      = .error (.valueError "\x27to\x27 must be a list of strings") :=
  ⟨rfl, rfl, (C5_to_argument_validation cfgEx [("to", JValue.str "abc")]
    (JValue.str "abc") rfl).1 rfl rfl "u1" "example.com" none trEx⟩

/-- C6: the transport flags are derived deterministically from the single
`use_tls` (secure) flag — `use_tls = secure`, `start_tls = not secure` — so
exactly one of the two modes is active; and the composed message does not
depend on the secure flag: toggling it with an otherwise identical
configuration leaves every field of the composed message unchanged. -/
theorem C6_secure_flag_exclusive_and_compose_independent
    (cfg : EmailClient) :
    (transportSettings cfg).1 = cfg.use_tls
    ∧ (transportSettings cfg).2 = !cfg.use_tls
    ∧ Bool.xor (transportSettings cfg).1 (transportSettings cfg).2 = true
    ∧ ∀ (b1 b2 : Bool) (to_ : List String) (subject text : JValue)
        (html : Option String) (mid : String),
        composeMessage { cfg with use_tls := b1 } to_ subject text html mid
          = composeMessage { cfg with use_tls := b2 } to_ subject text html mid := by
  refine ⟨rfl, rfl, ?_, ?_⟩
  · cases h : cfg.use_tls <;> simp [transportSettings, h]
  · intro b1 b2 to_ subject text html mid
    rfl

/-- C7 counterexample: with `htmlBody` present but equal to the empty string
the composed message carries a single plain-text part, not two parts, since
the code tests `if html:` (truthiness), not presence. -/
theorem C7_empty_html_yields_single_part :
    (composeMessage cfgEx ["b@example.com"] (JValue.str "Hi")
        (JValue.str "Hello") (some "") "<u1@example.com>").parts
      = [.text (JValue.str "Hello")] := rfl

/-- C7 (amended): when `htmlBody` is present and non-empty the composed
message carries exactly two content parts — the plain-text part
(`text or ""`) and the HTML alternative — and when `htmlBody` is absent or
the empty string it carries exactly the one plain-text part. -/
theorem C7_content_parts_shape
    (cfg : EmailClient) (to_ : List String) (subject text : JValue)
    (mid : String) :
    (∀ h : String, h ≠ "" →
        (composeMessage cfg to_ subject text (some h) mid).parts
          = [.text (pyOr text (.str "")), .htmlAlt h])
    ∧ (composeMessage cfg to_ subject text none mid).parts
        = [.text (pyOr text (.str ""))]
    ∧ (composeMessage cfg to_ subject text (some "") mid).parts
        = [.text (pyOr text (.str ""))] := by
  refine ⟨?_, rfl, rfl⟩
  intro h hne
  simp [composeMessage, hne]

/-- Witness for the amended C7: a non-empty html body yields two parts. -/
theorem C7_content_parts_shape_witness :
    (composeMessage cfgEx ["b@example.com"] (JValue.str "Hi")
        (JValue.str "Hello") (some "<p>Hello</p>") "<u1@example.com>").parts
      = [.text (JValue.str "Hello"), .htmlAlt "<p>Hello</p>"] :=
  (C7_content_parts_shape cfgEx ["b@example.com"] (JValue.str "Hi")
    (JValue.str "Hello") "<u1@example.com>").1 "<p>Hello</p>" (by decide)

/-- C8: invoking any capability name other than `send_email` raises the
unknown-tool `ValueError` — independently of the arguments and of every
oracle, so the Mail Sender is never consulted — and the serving loop handles
subsequent calls unchanged. -/
theorem C8_unknown_tool_never_reaches_sender
    (client : EmailClient) (name : String) (hname : name ≠ "send_email") :
    (∀ args u d ce tr, handle_call_tool client name args u d ce tr
        = .error (.valueError ("Unknown tool: " ++ name)))
    ∧ (∀ (c : ToolCall) (rest : List ToolCall), c.name = name →
        serveCalls client (c :: rest)
          = .error (.valueError ("Unknown tool: " ++ name))
            :: serveCalls client rest) := by
  have h1 : ∀ args u d ce tr, handle_call_tool client name args u d ce tr
      = .error (.valueError ("Unknown tool: " ++ name)) := by
    intro args u d ce tr
    simp [handle_call_tool, hname]
  refine ⟨h1, ?_⟩
  intro c rest hn
  simp [serveCalls, runCall, hn, h1]

/-- Witness for C8 at a concrete unknown capability name. -/
theorem C8_unknown_tool_never_reaches_sender_witness :
    handle_call_tool cfgEx "delete_email" [] "u1" "example.com" none trEx
      = .error (.valueError ("Unknown tool: " ++ "delete_email")) :=
  (C8_unknown_tool_never_reaches_sender cfgEx "delete_email" (by decide)).1
    [] "u1" "example.com" none trEx

/-- C9: the configured port comes from `SMTP_PORT` with default 587, any
`SMTP_PORT` value that `int(...)` rejects silently falls back to 587, and a
successfully constructed client carries exactly that port. -/
theorem C9_port_default_and_silent_fallback (env : Env) :
    (envGet env "SMTP_PORT" = none → configPort env = 587)
    ∧ (∀ s, envGet env "SMTP_PORT" = some s → pyIntOfString s = none →
        configPort env = 587)
    ∧ (∀ c, mkEmailClient env = .ok c → c.port = configPort env) := by
  refine ⟨?_, ?_, ?_⟩
  · intro h
    simp only [configPort, h]
    rfl
  · intro s hs hparse
    simp [configPort, hs, hparse]
  · intro c hc
    unfold mkEmailClient at hc
    split at hc
    · cases hc
    · split at hc
      · cases hc
      · simp only [] at hc
        split at hc
        · cases hc
        · injection hc with h
          subst h
          rfl

/-- Witness for C9: a non-numeric and an absent `SMTP_PORT` both yield
port 587. -/
theorem C9_port_default_and_silent_fallback_witness :
    configPort [("SMTP_PORT", "not-a-number")] = 587
    ∧ configPort [] = 587 :=
  ⟨(C9_port_default_and_silent_fallback [("SMTP_PORT", "not-a-number")]).2.1
      "not-a-number" rfl rfl,
   (C9_port_default_and_silent_fallback []).1 rfl⟩

/-- C10: only the transport send is inside the `try`; when the mail-message
library raises during composition, `send_email` propagates that exception to
the caller — for every transport oracle, so without producing a
failure-shaped record. -/
theorem C10_composition_error_propagates
    (cfg : EmailClient) (to_ : List String) (subject text : JValue)
    (html : Option String) (u d e : String)
    (tr : ComposedMessage → Except String (Int × String)) (hne : to_ ≠ []) :
    send_email cfg to_ subject text html u d (some e) tr
      = .error (.libraryError e) := by
  simp [send_email, hne]

/-- Witness for C10 at a concrete composition failure. -/
theorem C10_composition_error_propagates_witness :
    send_email cfgEx ["b@example.com"] (JValue.str "Hi") (JValue.str "Hello")
        none "u1" "example.com"
        (some "Header values may not contain linefeed characters") trEx
      = .error (.libraryError
          "Header values may not contain linefeed characters") :=
  C10_composition_error_propagates cfgEx ["b@example.com"] (JValue.str "Hi")
    (JValue.str "Hello") none "u1" "example.com"
    "Header values may not contain linefeed characters" trEx (by decide)

end SmtpMcp
